import Mathlib

/-!
Verification of the `slaughterhouse` registry (`src/slaughterhouse.rs`)

Shallow embedding of the three-level registry: a `Slaughterhouse` maps
location names to unit maps, each unit map maps unit names to a `Hall`,
and a `Hall` holds a fixed-length list of optional occupants (`Hook`).

Rust's `HashMap` is modelled as an association list with unique-key
semantics: `alookup` finds the first (hence only) entry for a key,
`ainsert` replaces the value in place when the key is present and
appends otherwise (`HashMap::insert`), and `amodify` rewrites the value
at an existing key in place (`HashMap::get_mut` followed by mutation).
The enumeration order of a `HashMap` is implementation defined; the
association list fixes one concrete, self-consistent order, which is all
the source relies on.

The boxed `dyn Animal` trait object is modelled by its observable
content: the `race` and the name returned by `get_name`.  `clone`
produces an equal value, so cloning is the identity here.

Rust methods taking `&mut self` are modelled as functions returning the
new state; a fallible method returns a result that carries the state,
so that "the registry is unchanged on error" is expressible.  The slot
write `hooks[index] = Some(animal)` in `add_animal` panics in Rust when
`index` is out of bounds for the vector; the embedding makes that
outcome explicit with a dedicated `panicked` constructor.
-/

set_option autoImplicit false

namespace Slh

/-- The observable content of a boxed `dyn Animal` trait object:
`race()` and `get_name()`. -/
structure Animal where
  race : String
  name : String
  deriving DecidableEq, Repr

/-- Embeds `type Hook<'a> = Option<Box<dyn Animal<'a> + 'a>>;`. -/
abbrev Hook := Option Animal

/-- Embeds `struct Hall { hooks: Vec<Hook> }`. -/
structure Hall where
  hooks : List Hook
  deriving DecidableEq, Repr

/-- Embeds `Hall::new(capacity)`, which builds `vec![None; capacity]`. -/
def Hall.new (capacity : Nat) : Hall :=
  ⟨List.replicate capacity none⟩

/-- Embeds `type Unit<'a> = HashMap<&'a str, Hall<'a>>;` (named `UnitMap`
here because `Unit` is taken by Lean). -/
abbrev UnitMap := List (String × Hall)

/-- Embeds `type Locations<'a> = HashMap<&'a str, Unit<'a>>;` and
`struct Slaughterhouse<'a>(Locations<'a>);`. -/
abbrev Slaughterhouse := List (String × UnitMap)

/-- Models the `HashMap::get` / `get_mut` lookup: the value at the (unique) entry
with the given key, if any. -/
def alookup {β : Type} (k : String) : List (String × β) → Option β
  | [] => none
  | (k', v) :: rest => if k' = k then some v else alookup k rest

/-- Models `HashMap::insert`: replace the value in place when the key is
present, append a fresh entry otherwise. -/
def ainsert {β : Type} (k : String) (v : β) : List (String × β) → List (String × β)
  | [] => [(k, v)]
  | (k', v') :: rest =>
    if k' = k then (k', v) :: rest else (k', v') :: ainsert k v rest

/-- Mutation through `HashMap::get_mut`: rewrite the value at the
(unique) entry with the given key, leaving everything else in place. -/
def amodify {β : Type} (k : String) (f : β → β) : List (String × β) → List (String × β)
  | [] => []
  | (k', v) :: rest =>
    if k' = k then (k', f v) :: rest else (k', v) :: amodify k f rest

/-- Embeds `Slaughterhouse::new()` — the empty registry. -/
def Slaughterhouse.new : Slaughterhouse := []

/-- Embeds `add_location(&mut self, name)`: `self.insert(name, Unit::new())`. -/
def add_location (sh : Slaughterhouse) (name : String) : Slaughterhouse :=
  ainsert name [] sh

/-- Result of a `&mut self` method returning `Result<(), _>`: `ok`
carries the new registry, `err` the error message and the registry as
the call left it. -/
inductive UnitResult where
  | ok (sh : Slaughterhouse)
  | err (msg : String) (sh : Slaughterhouse)
  deriving DecidableEq, Repr

/-- Embeds `add_unit(&mut self, location, name, capacity)`:
`self.get_mut(location).ok_or("Location not found")?.insert(name, Hall::new(capacity))`. -/
def add_unit (sh : Slaughterhouse) (location name : String) (capacity : Nat) :
    UnitResult :=
  match alookup location sh with
  | none => .err "Location not found" sh
  | some _ => .ok (amodify location (fun u => ainsert name (Hall.new capacity) u) sh)

/-- Embeds `has_free_hook(&self)`: nested `any` over locations, units and
hooks, looking for an empty hook. -/
def has_free_hook (sh : Slaughterhouse) : Bool :=
  sh.any fun p => p.2.any fun q => q.2.hooks.any fun hook => hook.isNone

/-- Embeds `next_free_hook_index(&self)`: nested `find_map` returning the
`position` of the first empty hook in the first hall (in scan order)
that has one; `Err("No free hooks")` when every hook is taken. -/
def next_free_hook_index (sh : Slaughterhouse) : Except String Nat :=
  match sh.findSome? (fun p => p.2.findSome? fun q =>
      q.2.hooks.findIdx? fun hook => hook.isNone) with
  | none => .error "No free hooks"
  | some index => .ok index

/-- Outcome of `add_animal`: `ok` carries the new registry and the
returned index, `err` the message and the registry as the call left it,
and `panicked` records the out-of-bounds write `hooks[index] = ...`
aborting the process. -/
inductive AddResult where
  | ok (sh : Slaughterhouse) (index : Nat)
  | err (msg : String) (sh : Slaughterhouse)
  | panicked
  deriving DecidableEq, Repr

/-- Embeds `add_animal(&mut self, location, unit, animal)`: when
`has_free_hook()`, take `index = next_free_hook_index()?`, then
`self.get_mut(location).ok_or(...)?.get_mut(unit).ok_or(...)?
.hooks[index] = Some(animal)` and return `Ok(index)`; otherwise
`Err("No free hooks")`.  The indexing assignment panics when `index`
is out of bounds for the caller-named hall. -/
def add_animal (sh : Slaughterhouse) (location unitName : String)
    (animal : Animal) : AddResult :=
  if has_free_hook sh then
    match next_free_hook_index sh with
    | .error msg => .err msg sh
    | .ok index =>
      match alookup location sh with
      | none => .err "Could not find to location" sh
      | some unitMap =>
        match alookup unitName unitMap with
        | none => .err "Could not find unit" sh
        | some hall =>
          if index < hall.hooks.length then
            .ok (amodify location
                  (amodify unitName fun h => ⟨h.hooks.set index (some animal)⟩) sh)
                index
          else
            .panicked
  else
    .err "No free hooks" sh

/-- Embeds `get_animal(&self, location, unit_name, index)`:
`self.get(location).and_then(|u| u.get(unit_name))
.and_then(|hall| hall.hooks.get(index).cloned()).flatten()
.ok_or("Animal not found")`. -/
def get_animal (sh : Slaughterhouse) (location unitName : String) (index : Nat) :
    Except String Animal :=
  match (((alookup location sh).bind fun u => alookup unitName u).bind
      fun hall => hall.hooks[index]?).join with
  | some animal => .ok animal
  | none => .error "Animal not found"

/-- Embeds `iter_hooks(&self)`: the flattened sequence of every hook across
the registry, in the same scan order as `has_free_hook` and
`next_free_hook_index`. -/
def iter_hooks (sh : Slaughterhouse) : List Hook :=
  sh.flatMap fun p => p.2.flatMap fun q => q.2.hooks

end Slh

namespace Slh

/-! Helper lemmas about the association-list model. -/

/-- Looking up a key after rewriting that key's value sees the rewrite. -/
theorem alookup_amodify_self {β : Type} (k : String) (f : β → β)
    (l : List (String × β)) :
    alookup k (amodify k f l) = (alookup k l).map f := by
  induction l with
  | nil => rfl
  | cons p rest ih =>
    obtain ⟨k', v⟩ := p
    by_cases hk : k' = k <;> simp [amodify, alookup, hk, ih]

/-- Looking up a key right after inserting it sees the inserted value. -/
theorem alookup_ainsert_self {β : Type} (k : String) (v : β)
    (l : List (String × β)) :
    alookup k (ainsert k v l) = some v := by
  induction l with
  | nil => simp [ainsert, alookup]
  | cons p rest ih =>
    obtain ⟨k', v'⟩ := p
    by_cases hk : k' = k <;> simp [ainsert, alookup, hk, ih]

/-- The nested `any` of `has_free_hook` agrees with scanning the
flattened hook sequence for an empty hook. -/
theorem has_free_hook_iff_mem (sh : Slaughterhouse) :
    has_free_hook sh = true ↔ ∃ hook ∈ iter_hooks sh, hook = none := by
  simp only [has_free_hook, iter_hooks, List.any_eq_true, List.mem_flatMap,
    Option.isNone_iff_eq_none]
  constructor
  · rintro ⟨p, hp, q, hq, hook, hmem, hnone⟩
    exact ⟨hook, ⟨p, hp, q, hq, hmem⟩, hnone⟩
  · rintro ⟨hook, ⟨p, hp, q, hq, hmem⟩, hnone⟩
    exact ⟨p, hp, q, hq, hook, hmem, hnone⟩

end Slh

namespace Slh

/-! Concrete registries used to evaluate `add_animal` where the global
free-slot scan and the caller-directed write disagree.  Each is
reachable through the public operations (shown inside the theorems
that use them). -/

/-- A registry with one location `"A"` whose hall `"u1"` is full (slot 0
holds Bessie) while hall `"u2"` still has its single slot free. -/
def shMismatch : Slaughterhouse :=
  [("A", [("u1", ⟨[some ⟨"Cow", "Bessie"⟩]⟩), ("u2", ⟨[none]⟩)])]

/-- The registry `add_animal shMismatch "A" "u1" Daisy` produces: Daisy
has replaced Bessie in slot 0 of `"u1"`, and the free slot of `"u2"` is
still empty. -/
def shMismatchAfter : Slaughterhouse :=
  [("A", [("u1", ⟨[some ⟨"Cow", "Daisy"⟩]⟩), ("u2", ⟨[none]⟩)])]

/-- A registry where the first free slot in scan order is index 1 of
hall `"big"`, while hall `"small"` has length 1, so index 1 is out of
bounds for it. -/
def shShort : Slaughterhouse :=
  [("A", [("big", ⟨[some ⟨"Cow", "Bessie"⟩, none]⟩),
          ("small", ⟨[some ⟨"Cow", "Clara"⟩]⟩)])]

/-- C1: the claim says a successful `add_animal` puts the occupant into
the first free slot of the global scan and that the same
(location, unit, index) triple is used for the check and the write.
The code computes only a bare index (`next_free_hook_index`) and then
writes at that index inside the caller-named hall.  Here the scan's
first free slot is `("A", "u2", 0)` (slot `("A", "u2", 0)` is empty,
and the scan returns index 0), yet `add_animal shMismatch "A" "u1"`
returns `Ok 0` and writes into `("A", "u1", 0)`, a slot that was
occupied by Bessie — not the free slot the scan found. -/
theorem add_animal_scan_write_mismatch :
    next_free_hook_index shMismatch = .ok 0 ∧
    get_animal shMismatch "A" "u2" 0 = .error "Animal not found" ∧
    get_animal shMismatch "A" "u1" 0 = .ok ⟨"Cow", "Bessie"⟩ ∧
    add_animal shMismatch "A" "u1" ⟨"Cow", "Daisy"⟩ = .ok shMismatchAfter 0 :=
  ⟨rfl, rfl, rfl, rfl⟩

/-- C2: the claim says a successful `add_animal` changes exactly one
slot from empty to holding the occupant.  Evaluating the code on
`shMismatch`: the call returns `Ok 0`, yet comparing the flattened slot
sequences before and after shows that no slot went from empty to
occupied — the occupied slot changed occupant (Bessie to Daisy) and the
single empty slot is still empty. -/
theorem add_animal_ok_without_filling_empty_slot :
    iter_hooks shMismatch = [some ⟨"Cow", "Bessie"⟩, none] ∧
    add_animal shMismatch "A" "u1" ⟨"Cow", "Daisy"⟩ = .ok shMismatchAfter 0 ∧
    iter_hooks shMismatchAfter = [some ⟨"Cow", "Daisy"⟩, none] :=
  ⟨rfl, rfl, rfl⟩

/-- C3: the claim says no public operation ever panics and that the slot
write inside `add_animal` is always in bounds.  Building a registry
through the public API where hall `"big"` has its free slot at index 1
and hall `"small"` has length 1, the call
`add_animal _ "A" "small" Daisy` evaluates `hooks[1] = Some(Daisy)` on
the length-1 vector of `"small"` — an out-of-bounds indexing
assignment, i.e. a Rust panic (`panicked` in this embedding). -/
theorem add_animal_out_of_bounds_write :
    add_location Slaughterhouse.new "A" = [("A", [])] ∧
    add_unit [("A", [])] "A" "big" 2 = .ok [("A", [("big", ⟨[none, none]⟩)])] ∧
    add_unit [("A", [("big", ⟨[none, none]⟩)])] "A" "small" 1 =
      .ok [("A", [("big", ⟨[none, none]⟩), ("small", ⟨[none]⟩)])] ∧
    add_animal [("A", [("big", ⟨[none, none]⟩), ("small", ⟨[none]⟩)])] "A" "small"
      ⟨"Cow", "Clara"⟩ =
      .ok [("A", [("big", ⟨[none, none]⟩), ("small", ⟨[some ⟨"Cow", "Clara"⟩]⟩)])] 0 ∧
    add_animal [("A", [("big", ⟨[none, none]⟩), ("small", ⟨[some ⟨"Cow", "Clara"⟩]⟩)])]
      "A" "big" ⟨"Cow", "Bessie"⟩ = .ok shShort 0 ∧
    add_animal shShort "A" "small" ⟨"Cow", "Daisy"⟩ = .panicked :=
  ⟨rfl, rfl, rfl, rfl, rfl, rfl⟩

/-- C4: the claim says an occupied slot is never overwritten with a
different occupant except through the overwrite semantics of
`add_location` / `add_unit`.  Starting from the empty registry and
using only the public operations, the state `shMismatch` is reached
(slot `("A", "u1", 0)` holds Bessie); the public call
`add_animal shMismatch "A" "u1" Daisy` then overwrites that occupied
slot with Daisy. -/
theorem add_animal_overwrites_occupied_slot :
    add_location Slaughterhouse.new "A" = [("A", [])] ∧
    add_unit [("A", [])] "A" "u1" 1 = .ok [("A", [("u1", ⟨[none]⟩)])] ∧
    add_unit [("A", [("u1", ⟨[none]⟩)])] "A" "u2" 1 =
      .ok [("A", [("u1", ⟨[none]⟩), ("u2", ⟨[none]⟩)])] ∧
    add_animal [("A", [("u1", ⟨[none]⟩), ("u2", ⟨[none]⟩)])] "A" "u1"
      ⟨"Cow", "Bessie"⟩ = .ok shMismatch 0 ∧
    get_animal shMismatch "A" "u1" 0 = .ok ⟨"Cow", "Bessie"⟩ ∧
    add_animal shMismatch "A" "u1" ⟨"Cow", "Daisy"⟩ = .ok shMismatchAfter 0 ∧
    get_animal shMismatchAfter "A" "u1" 0 = .ok ⟨"Cow", "Daisy"⟩ :=
  ⟨rfl, rfl, rfl, rfl, rfl, rfl, rfl⟩

/-- C5: whenever `add_animal sh location unit x` succeeds with index
`i` and new state `sh'`, reading the same coordinates back with
`get_animal sh' location unit i` returns a value equal in content to
`x` (round-trip).  This holds even in the misplaced-write states: the
returned index is always the index at which the occupant was stored in
the caller-named hall. -/
theorem add_animal_get_animal_round_trip
    (sh : Slaughterhouse) (location unitName : String) (x : Animal)
    (sh' : Slaughterhouse) (i : Nat)
    (h : add_animal sh location unitName x = .ok sh' i) :
    get_animal sh' location unitName i = .ok x := by
  unfold add_animal at h
  split at h
  · split at h
    · exact AddResult.noConfusion h
    · rename_i index hnext
      split at h
      · exact AddResult.noConfusion h
      · rename_i unitMap hloc
        split at h
        · exact AddResult.noConfusion h
        · rename_i hall hunit
          split at h
          · rename_i hlen
            injection h with h1 h2
            subst h1
            subst h2
            have hset : (hall.hooks.set index (some x))[index]? = some (some x) :=
              List.getElem?_set_eq_of_lt _ hlen
            simp [get_animal, alookup_amodify_self, hloc, hunit, hset]
          · exact AddResult.noConfusion h
  · exact AddResult.noConfusion h

/-- C5 witness: a concrete round trip.  Inserting Bessie into the empty
hall of `"Farm"/"Barn"` succeeds with index 0, and reading index 0 back
returns Bessie. -/
theorem add_animal_get_animal_round_trip_witness :
    get_animal [("Farm", [("Barn", ⟨[some ⟨"Cow", "Bessie"⟩]⟩)])] "Farm" "Barn" 0 =
      .ok ⟨"Cow", "Bessie"⟩ :=
  add_animal_get_animal_round_trip [("Farm", [("Barn", ⟨[none]⟩)])] "Farm" "Barn"
    ⟨"Cow", "Bessie"⟩ [("Farm", [("Barn", ⟨[some ⟨"Cow", "Bessie"⟩]⟩)])] 0 rfl

/-- C6: `has_free_hook` returns true exactly when the flattened slot
sequence produced by `iter_hooks` contains at least one empty slot
(stated as a Boolean equation, which gives both directions of the
iff). -/
theorem has_free_hook_eq_iter_hooks_any_empty (sh : Slaughterhouse) :
    has_free_hook sh = ((iter_hooks sh).any fun hook => hook.isNone) := by
  rw [Bool.eq_iff_iff, has_free_hook_iff_mem]
  simp [List.any_eq_true, Option.isNone_iff_eq_none]

/-- C7: on a registry in which no slot is empty, `add_animal` fails
with the no-capacity error (`"No free hooks"`) for every choice of
location, unit and occupant, and the registry it leaves behind is
exactly the input registry. -/
theorem full_registry_add_animal_no_capacity
    (sh : Slaughterhouse) (location unitName : String) (animal : Animal)
    (hfull : ∀ hook ∈ iter_hooks sh, hook ≠ none) :
    add_animal sh location unitName animal = .err "No free hooks" sh := by
  have hfree : has_free_hook sh = false := by
    cases hf : has_free_hook sh
    · rfl
    · obtain ⟨hook, hmem, hnone⟩ := (has_free_hook_iff_mem sh).1 hf
      exact absurd hnone (hfull hook hmem)
  unfold add_animal
  rw [hfree]
  rfl

/-- C7 witness: a registry whose single slot is occupied rejects any
insertion with the no-capacity error and is left unchanged. -/
theorem full_registry_add_animal_no_capacity_witness :
    add_animal [("Farm", [("Barn", ⟨[some ⟨"Cow", "Bessie"⟩]⟩)])] "Farm" "Barn"
      ⟨"Cow", "Daisy"⟩ =
      .err "No free hooks" [("Farm", [("Barn", ⟨[some ⟨"Cow", "Bessie"⟩]⟩)])] :=
  full_registry_add_animal_no_capacity _ "Farm" "Barn" _ (by decide)

/-- C8 reference definition, following the spec's words for
`get_animal`: fail with the not-found error if the location does not
exist, or the unit does not exist within it, or the index is out of
range for the hall, or the slot at that index is empty; otherwise
return the occupant at that exact slot. -/
def getAnimalSpec (sh : Slaughterhouse) (location unitName : String) (index : Nat) :
    Except String Animal :=
  match alookup location sh with
  | none => .error "Animal not found"
  | some unitMap =>
    match alookup unitName unitMap with
    | none => .error "Animal not found"
    | some hall =>
      if h : index < hall.hooks.length then
        match hall.hooks[index] with
        | some animal => .ok animal
        | none => .error "Animal not found"
      else .error "Animal not found"

/-- C8: `get_animal` agrees everywhere with the spec's case analysis
`getAnimalSpec`: it fails with the not-found error exactly when the
location or unit is missing, the index is out of range, or the slot is
empty, and succeeds with the occupant exactly when the slot exists and
holds one.  The embedded function is total, matching the source, whose
option-chained reads cannot panic. -/
theorem get_animal_eq_spec (sh : Slaughterhouse) (location unitName : String)
    (index : Nat) :
    get_animal sh location unitName index = getAnimalSpec sh location unitName index := by
  unfold getAnimalSpec
  split
  · rename_i hloc
    unfold get_animal
    rw [hloc]
    rfl
  · rename_i unitMap hloc
    split
    · rename_i hunit
      unfold get_animal
      rw [hloc]
      simp only [Option.some_bind]
      rw [hunit]
      rfl
    · rename_i hall hunit
      unfold get_animal
      rw [hloc]
      simp only [Option.some_bind]
      rw [hunit]
      simp only [Option.some_bind]
      by_cases hlen : index < hall.hooks.length
      · rw [dif_pos hlen, List.getElem?_eq_getElem hlen]
        cases hall.hooks[index] <;> rfl
      · rw [dif_neg hlen, List.getElem?_eq_none (Nat.le_of_not_lt hlen)]
        rfl

/-- C9: `add_unit` fails with the not-found error and leaves the
registry exactly as it was when the location does not exist; when the
location exists it succeeds and the resulting registry holds, under
that location and the given unit name, a hall of exactly `capacity`
empty slots. -/
theorem add_unit_not_found_or_installs_hall
    (sh : Slaughterhouse) (location name : String) (capacity : Nat) :
    (alookup location sh = none →
      add_unit sh location name capacity = .err "Location not found" sh) ∧
    (alookup location sh ≠ none →
      ∃ sh', add_unit sh location name capacity = .ok sh' ∧
        ∃ unitMap, alookup location sh' = some unitMap ∧
          alookup name unitMap = some ⟨List.replicate capacity none⟩) := by
  constructor
  · intro h
    unfold add_unit
    rw [h]
  · intro h
    cases hloc : alookup location sh with
    | none => exact absurd hloc h
    | some g =>
      refine ⟨amodify location (fun u => ainsert name (Hall.new capacity) u) sh, ?_,
        ainsert name (Hall.new capacity) g, ?_, ?_⟩
      · unfold add_unit
        rw [hloc]
      · rw [alookup_amodify_self, hloc]
        rfl
      · exact alookup_ainsert_self name (Hall.new capacity) g

/-- C9 witness: `add_unit "Nowhere" "X" 1` on the empty registry fails
with the not-found error and leaves it empty, and `add_unit "Farm"
"Barn" 2` on a registry holding location `"Farm"` installs a hall of
two empty slots. -/
theorem add_unit_not_found_or_installs_hall_witness :
    add_unit ([] : Slaughterhouse) "Nowhere" "X" 1 = .err "Location not found" [] ∧
    ∃ sh', add_unit [("Farm", ([] : UnitMap))] "Farm" "Barn" 2 = .ok sh' ∧
      ∃ unitMap, alookup "Farm" sh' = some unitMap ∧
        alookup "Barn" unitMap = some ⟨List.replicate 2 none⟩ :=
  ⟨(add_unit_not_found_or_installs_hall [] "Nowhere" "X" 1).1 rfl,
   (add_unit_not_found_or_installs_hall [("Farm", [])] "Farm" "Barn" 2).2 (by decide)⟩

/-- C10: in `add_animal` the global capacity check runs before the
location/unit lookups: whenever the registry has no free slot anywhere
(the empty registry included), the call fails with the no-capacity
error `"No free hooks"` regardless of whether the named location or
unit exists; conversely any other error (the two not-found errors) can
only be produced when the registry does have a free slot somewhere. -/
theorem capacity_check_precedes_lookup
    (sh : Slaughterhouse) (location unitName : String) (animal : Animal) :
    (has_free_hook sh = false →
      add_animal sh location unitName animal = .err "No free hooks" sh) ∧
    (∀ msg sh', add_animal sh location unitName animal = .err msg sh' →
      msg ≠ "No free hooks" → has_free_hook sh = true) := by
  constructor
  · intro h
    unfold add_animal
    rw [h]
    rfl
  · intro msg sh' h hne
    cases hf : has_free_hook sh
    · unfold add_animal at h
      rw [hf] at h
      simp at h
      exact absurd h.1.symm hne
    · rfl

/-- C10 witness: on the empty registry (no free slot, and the named
location does not exist either) `add_animal` fails with the
no-capacity error; and a registry that does produce a not-found error
(free slot present, location `"Nowhere"` missing) indeed has a free
slot. -/
theorem capacity_check_precedes_lookup_witness :
    add_animal ([] : Slaughterhouse) "Farm" "Barn" ⟨"Cow", "Daisy"⟩ =
      .err "No free hooks" [] ∧
    has_free_hook [("Farm", [("Barn", ⟨[none]⟩)])] = true :=
  ⟨(capacity_check_precedes_lookup [] "Farm" "Barn" ⟨"Cow", "Daisy"⟩).1 rfl,
   (capacity_check_precedes_lookup [("Farm", [("Barn", ⟨[none]⟩)])] "Nowhere" "Y"
     ⟨"Cow", "Daisy"⟩).2 "Could not find to location" _ rfl (by decide)⟩

end Slh
